import Mathlib

/-!
# Verification of the ensime-vim connection and dispatch engine

A shallow embedding, in Lean 4, of the core of the `ensime-vim` plugin:
the `EnsimeClient` connection manager and request correlator
(`src/ensime_shared/ensime.py`), the protocol dispatcher
(`src/ensime_shared/protocol.py`) and the typecheck diagnostics buffer
(`src/ensime_shared/typecheck.py`).

Modelling conventions:
* Python dictionaries/JSON values are modelled by the inductive `Json`;
  bracket access `d["k"]` that may raise `KeyError` is modelled by
  `Json.getKey` returning `Option`, with call sites propagating `none`
  as an exception (`Except.error`).
* Machine effects (websocket sends, vim commands, subprocess calls,
  log lines) are collected in lists of the inductive `Eff`.
* The behaviour of the network (whether a `ws.send` or a
  `create_connection` succeeds or throws) is an oracle `Net`, indexed
  by per-client operation counters.
* `ensime_shared.util.catch(Exc, handler)` is a context manager that
  runs its body and, on an exception of class `Exc`, invokes `handler`
  instead of propagating; exceptions raised by `handler` itself
  propagate.  (The module `util.py` is not part of the sources here;
  this is the behaviour every call site in `ensime.py`/`protocol.py`
  relies on.)
* Real time (the `timeout` clock of `unqueue`, the pump's sleep) is
  abstracted away: a drain pass processes the queued frames that are
  present, which is the zero-processing-time idealisation of the loop.
-/

set_option autoImplicit false

namespace EnsimeVim

/-! ### JSON values (Python dict / list / scalar values) -/

/-- A JSON value as manipulated by the Python code (`json.loads` /
`json.dumps` and plain dict access). -/
inductive Json where
  | null : Json
  | bool (b : Bool) : Json
  | num (n : Int) : Json
  | str (s : String) : Json
  | arr (elems : List Json) : Json
  | obj (fields : List (String × Json)) : Json
deriving Repr

/-- Python truthiness of a JSON value (`if x:`). -/
def Json.truthy : Json → Bool
  | .null => false
  | .bool b => b
  | .num n => n != 0
  | .str s => !(s.isEmpty)
  | .arr elems => !elems.isEmpty
  | .obj fields => !fields.isEmpty

/-- Dictionary lookup, `d.get(k)` / guarded `d[k]`: `none` models both a
missing key and a non-dictionary receiver (either raises in Python when
bracket access is used). -/
def Json.getKey : Json → String → Option Json
  | .obj fields, k => fields.lookup k
  | _, _ => none

/-- Python `k in d`. -/
def Json.hasKey (j : Json) (k : String) : Bool :=
  (j.getKey k).isSome

/-- JSON escaping of one character (quote and backslash; other control
escapes do not occur in the strings this development manipulates). -/
def jsonEscapeChar (c : Char) : List Char :=
  if c = '\\' then ['\\', '\\']
  else if c = '"' then ['\\', '"']
  else [c]

/-- Escape a string for JSON output. -/
def jsonEscape (s : String) : String :=
  String.mk (s.data.foldr (fun c acc => jsonEscapeChar c ++ acc) [])

mutual

/-- `json.dumps` with Python's default separators. -/
def Json.dumps : Json → String
  | .null => "null"
  | .bool true => "true"
  | .bool false => "false"
  | .num n => toString n
  | .str s => "\"" ++ jsonEscape s ++ "\""
  | .arr elems => "[" ++ String.intercalate ", " (Json.dumpsList elems) ++ "]"
  | .obj fields => "\x7b" ++ String.intercalate ", " (Json.dumpsFields fields) ++ "\x7d"
termination_by structural j => j

def Json.dumpsList : List Json → List String
  | [] => []
  | j :: js => Json.dumps j :: Json.dumpsList js
termination_by structural l => l

def Json.dumpsFields : List (String × Json) → List String
  | [] => []
  | (k, v) :: kvs =>
      ("\"" ++ jsonEscape k ++ "\": " ++ Json.dumps v) :: Json.dumpsFields kvs
termination_by structural l => l

end

/-! ### Observable effects -/

/-- Externally observable effects of the engine, in emission order. -/
inductive Eff where
  /-- A successful `self.ws.send(text)` (the text includes the newline
  appended at the call site). -/
  | transmit (text : String) : Eff
  /-- `create_connection(...)` was invoked (whether it succeeded or threw). -/
  | connectAttempt : Eff
  /-- `self.ensime.stop()` — the external server process is stopped. -/
  | serverStop : Eff
  /-- `self.disable_plugin()` — removes the plugin runtime paths and warns,
  through `threadsafe_vim` calls (not direct `vim.command` calls). -/
  | disablePlugin : Eff
  /-- `self.queue.put(frame)` by the pump thread. -/
  | queuePut (frame : String) : Eff
  /-- The pump logged a websocket receive exception. -/
  | logRecvExn : Eff
  /-- `Popen(["patch", ...]).wait()` against a target file and a diff file. -/
  | popenPatch (file : String) (diff : String) : Eff
  /-- `self.message(key)` — a feedback message shown in the status line. -/
  | message (key : String) : Eff
  /-- A direct `self.vim.command(cmd)` from the calling thread. -/
  | vimCommand (cmd : String) : Eff
  /-- `feedback["handler_not_implemented"]` reported for a typehint. -/
  | notSupportedMsg (typehint : String) : Eff
  /-- `self.editor.display_notes(notes)` — one batch of diagnostics. -/
  | displayNotes (notes : List Json) : Eff
  /-- A registered response handler was invoked with `(call_id, payload)`. -/
  | invokeHandler (callId : Option Json) (payload : Json) : Eff
  /-- The unhandled-response log line for a payload with no handler. -/
  | logUnhandled (payload : Json) : Eff
deriving Repr

/-! ### The typecheck diagnostics buffer (`typecheck.py`, `TypecheckHandler`) -/

/-- The mutable fields of `TypecheckHandler`. -/
structure TypecheckState where
  currently_buffering_typechecks : Bool
  buffered_notes : List Json
deriving Repr

/-- `TypecheckHandler.__init__`. -/
def TypecheckState.init : TypecheckState :=
  { currently_buffering_typechecks := false, buffered_notes := [] }

/-- `TypecheckHandler.buffer_typechecks(call_id, payload)`: appends
`payload['notes']` while buffering; `Except.error` models the `KeyError`
(or iteration failure) when buffering and the payload has no notes list. -/
def buffer_typechecks (st : TypecheckState) (payload : Json) :
    Except Unit TypecheckState :=
  if st.currently_buffering_typechecks then
    match payload.getKey "notes" with
    | some (.arr notes) =>
        .ok { st with buffered_notes := st.buffered_notes ++ notes }
    | _ => .error ()
  else
    .ok st

/-- `TypecheckHandler.start_typechecking()`: forces buffering and clears
the accumulated notes (the inner `if` is taken since the flag was just
set). -/
def start_typechecking (st : TypecheckState) : TypecheckState :=
  { st with currently_buffering_typechecks := true, buffered_notes := [] }

/-- `TypecheckHandler.handle_typecheck_complete(call_id, payload)`:
returns unchanged when not buffering; otherwise hands the accumulated
notes to the editor in one `display_notes` call and resets. -/
def handle_typecheck_complete (st : TypecheckState) :
    TypecheckState × List Eff :=
  if !st.currently_buffering_typechecks then
    (st, [])
  else
    ({ currently_buffering_typechecks := false, buffered_notes := [] },
     [Eff.displayNotes st.buffered_notes])

/-- Deliver a sequence of note payloads to `buffer_typechecks`. -/
def bufferAll (st : TypecheckState) : List Json → Except Unit TypecheckState
  | [] => .ok st
  | p :: ps =>
    match buffer_typechecks st p with
    | .ok st1 => bufferAll st1 ps
    | .error e => .error e

/-! ### The connection manager and request correlator (`ensime.py`) -/

/-- The fields of `EnsimeClient` that the connection code reads or writes.
`ws` is truthiness of `self.ws` (a dead socket object is still truthy);
whether an operation on it succeeds is decided by the `Net` oracle below.
`sendCnt`/`connCnt` index the oracle streams. -/
structure Client where
  running : Bool
  ws : Bool
  number_try_connection : Nat
  call_id : Nat
  ensime_server : Bool
  ensimeExists : Bool
  toggle_teardown : Bool
  sendCnt : Nat
  connCnt : Nat
deriving Repr

/-- Network oracle: outcome of the k-th `ws.send` and the k-th
`create_connection` performed by this client. -/
structure Net where
  sendOk : Nat → Bool
  connOk : Nat → Bool

/-- Result of running a code path: normal return with a value, or a
propagating Python exception.  `spin` is returned only when the
recursion fuel is exhausted; the theorems below never produce it. -/
inductive Res (α : Type) where
  | ok (st : Client) (effs : List Eff) (val : α) : Res α
  | exn (st : Client) (effs : List Eff) : Res α
  | spin : Res α
deriving Repr

/-- `self.ws.send(text)`: transmits and returns, or throws. -/
def wsSendPrim (net : Net) (st : Client) (text : String) : Res Unit :=
  if net.sendOk st.sendCnt then
    .ok { st with sendCnt := st.sendCnt + 1 } [Eff.transmit text] ()
  else
    .exn { st with sendCnt := st.sendCnt + 1 } []

/-- `self.shutdown_server()`: stops the server process when one was
launched and teardown is enabled.  No state change. -/
def shutdown_server (st : Client) : List Eff :=
  if st.ensimeExists && st.toggle_teardown then [Eff.serverStop] else []

/-- The local `disable_completely` handler of `connect_ensime_server`:
`shutdown_server()` then `disable_plugin()`.  It does not modify
`running`, `ws` or any counter. -/
def disable_completely (st : Client) : List Eff :=
  shutdown_server st ++ [Eff.disablePlugin]

/-- `self.teardown()`: clears `running`, then `shutdown_server()`. -/
def teardown (st : Client) : Client × List Eff :=
  ({ st with running := false }, shutdown_server { st with running := false })

/-- The envelope `{"callId": id, "req": request}` built by
`send_request`. -/
def envelope (id : Nat) (request : Json) : Json :=
  .obj [("callId", .num id), ("req", request)]

/-- The `{"typehint": "ConnectionInfoReq"}` request sent by
`connect_ensime_server` right after a successful connection. -/
def connectionInfoReq : Json :=
  .obj [("typehint", .str "ConnectionInfoReq")]

mutual

/-- `EnsimeClient.send(msg)`: when running with a websocket, try
`ws.send(msg + "\n")`; on an exception run the `reconnect` handler,
which calls `connect_ensime_server()` and then, if a websocket is
(still) present, re-sends once — an exception of that second send
propagates to the caller. -/
def sendF (net : Net) : Nat → Client → String → Res Unit
  | 0, _, _ => .spin
  | fuel + 1, st, msg =>
    if st.running && st.ws then
      match wsSendPrim net st (msg ++ "\n") with
      | .ok st1 e1 _ => .ok st1 e1 ()
      | .spin => .spin
      | .exn st1 e1 =>
        match connectF net fuel st1 with
        | .spin => .spin
        | .exn st2 e2 => .exn st2 (e1 ++ e2)
        | .ok st2 e2 _ =>
          if st2.ws then
            match wsSendPrim net st2 (msg ++ "\n") with
            | .ok st3 e3 _ => .ok st3 (e1 ++ e2 ++ e3) ()
            | .exn st3 e3 => .exn st3 (e1 ++ e2 ++ e3)
            | .spin => .spin
          else
            .ok st2 (e1 ++ e2) ()
    else
      .ok st [] ()

/-- `EnsimeClient.connect_ensime_server()`: with budget left, decrement
it, try `create_connection` under `catch(Exception, disable_completely)`
(a failure leaves `self.ws` at its previous value), then if `self.ws`
is truthy send `ConnectionInfoReq`; with no budget, go directly to
`disable_completely`. -/
def connectF (net : Net) : Nat → Client → Res Unit
  | 0, _ => .spin
  | fuel + 1, st =>
    if st.running && decide (st.number_try_connection ≠ 0) then
      let st1 : Client :=
        { st with number_try_connection := st.number_try_connection - 1,
                  ensime_server := true }
      if net.connOk st1.connCnt then
        let st2 : Client := { st1 with connCnt := st1.connCnt + 1, ws := true }
        match sendRequestF net fuel st2 connectionInfoReq with
        | .ok st3 e3 _ => .ok st3 (Eff.connectAttempt :: e3) ()
        | .exn st3 e3 => .exn st3 (Eff.connectAttempt :: e3)
        | .spin => .spin
      else
        let st2 : Client := { st1 with connCnt := st1.connCnt + 1 }
        let e2 := Eff.connectAttempt :: disable_completely st2
        if st2.ws then
          match sendRequestF net fuel st2 connectionInfoReq with
          | .ok st3 e3 _ => .ok st3 (e2 ++ e3) ()
          | .exn st3 e3 => .exn st3 (e2 ++ e3)
          | .spin => .spin
        else
          .ok st2 e2 ()
    else
      .ok st (disable_completely st) ()

/-- `EnsimeClient.send_request(request)`: serialize
`{"callId": self.call_id, "req": request}`, `send` it, then read and
post-increment `self.call_id` and return the read value.  (During a
reconnect the nested `ConnectionInfoReq` increments `call_id` before
this read — the code reads the field again after `send` returns.) -/
def sendRequestF (net : Net) : Nat → Client → Json → Res Nat
  | 0, _, _ => .spin
  | fuel + 1, st, request =>
    match sendF net fuel st (Json.dumps (envelope st.call_id request)) with
    | .ok st1 e1 _ =>
        .ok { st1 with call_id := st1.call_id + 1 } e1 st1.call_id
    | .exn st1 e1 => .exn st1 e1
    | .spin => .spin

end

/-- Fuel amply sufficient for every reachable recursion depth: the
mutual recursion only re-enters `connectF` after the connection budget
has been strictly decreased, and the budget of interest is at most 1. -/
def engineFuel : Nat := 8

/-- `EnsimeClient.send` at the standard fuel. -/
def sendMsg (net : Net) (st : Client) (msg : String) : Res Unit :=
  sendF net engineFuel st msg

/-- `EnsimeClient.send_request` at the standard fuel. -/
def send_request (net : Net) (st : Client) (request : Json) : Res Nat :=
  sendRequestF net engineFuel st request

/-- A sequence of `send_request` calls; the id of every call that
returns normally, in call order (an exception ends the sequence, as it
would propagate to the vim-side caller). -/
def sendRequests (net : Net) (st : Client) : List Json → Client × List Nat
  | [] => (st, [])
  | r :: rs =>
    match send_request net st r with
    | .ok st1 _ id =>
        let (st2, ids) := sendRequests net st1 rs
        (st2, id :: ids)
    | .exn st1 _ => (st1, [])
    | .spin => (st, [])

/-! ### The message pump (`ensime.py`, `EnsimeClient.queue_poll`) -/

/-- Outcome of the blocking `self.ws.recv()` in one pump iteration. -/
inductive RecvOutcome where
  | frame (s : String) : RecvOutcome
  | exn : RecvOutcome
deriving Repr

/-- The `logger_and_close` handler run when `ws.recv()` throws: log the
exception; when `running` was already cleared it only assigns a local
variable (dead in Python scoping — `connection_alive` in `queue_poll`
is never changed); otherwise, with the reconnect budget exhausted,
`teardown()` and `disable_plugin()`. -/
def pumpExnHandler (st : Client) : Client × List Eff :=
  if st.running then
    if st.number_try_connection = 0 then
      let (st1, e1) := teardown st
      (st1, Eff.logRecvExn :: (e1 ++ [Eff.disablePlugin]))
    else
      (st, [Eff.logRecvExn])
  else
    (st, [Eff.logRecvExn])

/-- One iteration of the `while self.running` pump loop, given the
recv outcome; the third component is the loop condition checked for
the next iteration. -/
def pumpStep (st : Client) (r : RecvOutcome) : Client × List Eff × Bool :=
  if st.running then
    if st.ws then
      match r with
      | .frame s => (st, [Eff.queuePut s], st.running)
      | .exn =>
          let (st1, e1) := pumpExnHandler st
          (st1, e1, st1.running)
    else
      (st, [], st.running)
  else
    (st, [], false)

/-! ### The refactoring applier (`ensime.py`, `EnsimeClient.apply_refactor`) -/

/-- The refactor kinds `apply_refactor` acts on. -/
def supportedRefactorKinds : List String :=
  ["Rename", "InlineLocal", "AddImport", "OrganizeImports"]

/-- `EnsimeClient.apply_refactor(call_id, payload)`: for a supported
`payload["refactorType"]["typehint"]`, run the external `patch`
utility on the current file with `payload["diff"]` (the `--reject-file`
and `--prefix` scratch arguments are elided from the effect), report
`failed_refactoring` when its exit status is non-zero, and reload the
file regardless; any other kind falls through the `if` with no effect.
`patchExit` is the exit status the external process would return;
`Except.error` models the `KeyError` of a malformed payload. -/
def apply_refactor (currentPath : String) (payload : Json)
    (patchExit : Nat) : Except Unit (List Eff) :=
  match (payload.getKey "refactorType").bind (·.getKey "typehint") with
  | some (.str kind) =>
    if supportedRefactorKinds.contains kind then
      match payload.getKey "diff" with
      | some (.str diffPath) =>
          .ok ([Eff.popenPatch currentPath diffPath]
            ++ (if patchExit ≠ 0 then [Eff.message "failed_refactoring"] else [])
            ++ [Eff.vimCommand ("edit " ++ currentPath),
                Eff.vimCommand "doautocmd BufReadPre,BufRead,BufEnter"])
      | _ => .error ()
    else
      .ok []
  | _ => .error ()

/-! ### Protocol dispatch (`protocol.py`, `ProtocolHandler.handle_incoming_response`) -/

/-- What invoking a registered handler does, as far as dispatch is
concerned: return normally, raise `NotImplementedError` (an abstract
handler stub), or raise some other exception.  The handlers' own
effects are out of the dispatcher's scope. -/
inductive HandlerOutcome where
  | normal : HandlerOutcome
  | notImplementedError : HandlerOutcome
  | otherError : HandlerOutcome
deriving Repr, DecidableEq

/-- `ProtocolHandler.handle_incoming_response(call_id, payload)`: read
`payload["typehint"]` (bracket access — `KeyError` when absent, modelled
by `Except.error`), look it up in `self.handlers`; when found, invoke
the handler with `(call_id, payload)` under
`catch(NotImplementedError, feature_not_supported)`, so a
`NotImplementedError` becomes the `handler_not_implemented` feedback
message; when not found, log the payload as unhandled.  `registry` is
the handler table keyed by typehint string (a non-string typehint finds
no handler in `self.handlers.get`). -/
def handle_incoming_response (registry : String → Option HandlerOutcome)
    (call_id : Option Json) (payload : Json) : Except Unit (List Eff) :=
  match payload.getKey "typehint" with
  | none => .error ()
  | some (.str typehint) =>
    match registry typehint with
    | some .normal => .ok [Eff.invokeHandler call_id payload]
    | some .notImplementedError =>
        .ok [Eff.invokeHandler call_id payload, Eff.notSupportedMsg typehint]
    | some .otherError => .error ()
    | none => .ok [Eff.logUnhandled payload]
  | some _ => .ok [Eff.logUnhandled payload]

/-! ### Completion handling (`protocol.py`, `ProtocolHandlerV1.handle_completion_info_list`) -/

/-- `ProtocolHandlerV1.handle_completion_info_list(call_id, payload)`:
keeps the entries of `payload["completions"]` that have a `typeInfo`
key and stores the suggestions converted from them, in order.  The
converter (`ensime_shared.symbol_format.completion_to_suggest`, whose
module is not among the sources here) is abstracted as the parameter
`toSuggest`; the result is the value stored into `self.suggestions`.
`Except.error` models the `KeyError`/`TypeError` of a payload without a
completions list. -/
def handle_completion_info_list {α : Type} (toSuggest : Json → α)
    (payload : Json) : Except Unit (List α) :=
  match payload.getKey "completions" with
  | some (.arr completions) =>
      .ok ((completions.filter (fun c => c.hasKey "typeInfo")).map toSuggest)
  | _ => .error ()

/-! ### The drain loop (`ensime.py`, `EnsimeClient.unqueue`) -/

/-- A raw frame popped from the inbound queue: the literal `"nil"`
string, an empty/None result, or a frame whose text parses as the JSON
value `j` (`json.loads` is injective on the frames the server emits;
parse failures do not arise in the claims below). -/
inductive RawFrame where
  | nilStr : RawFrame
  | emptyStr : RawFrame
  | json (j : Json) : RawFrame
deriving Repr

/-- Events observed while draining, in order. -/
inductive DrainEv where
  /-- One registered `receive_callbacks` observer invoked on a payload. -/
  | callback (name : String) (payload : Json) : DrainEv
  /-- `handle_incoming_response(call_id, payload)` invoked. -/
  | dispatched (callId : Option Json) (payload : Json) : DrainEv
  /-- The `"unqueue: nil or None received"` log line. -/
  | logNil : DrainEv
deriving Repr

/-- The body of one `unqueue` iteration on a popped frame: falsy or
`"nil"` frames are only logged; otherwise `callId` is read with
`.get` (absence tolerated), and `_json["payload"]` with bracket access
— `Except.error` models the `KeyError` when the key is absent; a truthy
payload triggers the observers and then dispatch, a falsy one does
nothing. -/
def processFrame (callbacks : List String) (f : RawFrame) :
    Except Unit (List DrainEv) :=
  match f with
  | .nilStr => .ok [DrainEv.logNil]
  | .emptyStr => .ok [DrainEv.logNil]
  | .json j =>
    let callId := j.getKey "callId"
    match j.getKey "payload" with
    | none => .error ()
    | some payload =>
      if payload.truthy then
        .ok (callbacks.map (fun n => DrainEv.callback n payload)
          ++ [DrainEv.dispatched callId payload])
      else
        .ok []

/-- The `unqueue` drain over the frames queued at entry, in FIFO order
(the timeout clock, reset on every processed frame, is abstracted as
never elapsing while the queue is non-empty). -/
def unqueueList (callbacks : List String) : List RawFrame →
    Except Unit (List DrainEv)
  | [] => .ok []
  | f :: fs =>
    match processFrame callbacks f with
    | .ok evs =>
      match unqueueList callbacks fs with
      | .ok rest => .ok (evs ++ rest)
      | .error e => .error e
    | .error e => .error e

/-- The dispatch events a frame contributes: its `(callId, payload)`
when the frame is a JSON value with a truthy payload, nothing
otherwise. -/
def dispatchOf (f : RawFrame) : Option (Option Json × Json) :=
  match f with
  | .json j =>
    match j.getKey "payload" with
    | some payload =>
        if payload.truthy then some (j.getKey "callId", payload) else none
    | none => none
  | _ => none

/-- Projection of a drain event to its dispatch content. -/
def dispatchEv : DrainEv → Option (Option Json × Json)
  | .dispatched ci p => some (ci, p)
  | _ => none

/-- A frame whose JSON decoding has a `payload` key (possibly null). -/
def wellFormedFrame (f : RawFrame) : Bool :=
  match f with
  | .json j => j.hasKey "payload"
  | _ => true

/-! ## Theorems -/

/-- On a network where every `ws.send` succeeds, `send_request` returns
normally with the current `call_id` and advances it by one — whether or
not anything was transmitted. -/
theorem send_request_allOk (net : Net) (st : Client) (r : Json)
    (h : ∀ k, net.sendOk k = true) :
    ∃ st' effs, send_request net st r = .ok st' effs st.call_id ∧
      st'.call_id = st.call_id + 1 := by
  cases hrw : (st.running && st.ws) with
  | true =>
      exact ⟨{ st with sendCnt := st.sendCnt + 1, call_id := st.call_id + 1 },
        [Eff.transmit (Json.dumps (envelope st.call_id r) ++ "\n")],
        by simp [send_request, sendRequestF, engineFuel, sendF, wsSendPrim, hrw, h],
        rfl⟩
  | false =>
      exact ⟨{ st with call_id := st.call_id + 1 }, [],
        by simp [send_request, sendRequestF, engineFuel, sendF, hrw], rfl⟩

/-- The ids returned by a run of `send_request` calls count up from the
client's current `call_id`. -/
theorem sendRequests_ids (net : Net) (h : ∀ k, net.sendOk k = true) :
    ∀ (reqs : List Json) (st : Client),
      (sendRequests net st reqs).2 = List.range' st.call_id reqs.length := by
  intro reqs
  induction reqs with
  | nil => intro st; rfl
  | cons r rs ih =>
      intro st
      obtain ⟨st', effs, heq, hcid⟩ := send_request_allOk net st r h
      simp only [sendRequests, heq, List.length_cons, List.range'_succ]
      rw [ih st', hcid]

/-- C1: For every sequence of N calls to `send_request` on one client
(from a fresh connection, `call_id = 0`, over a network that accepts
the transmissions), the returned call IDs are exactly the integers
`0..N-1` in send order, each unique and monotonically increasing. -/
theorem send_request_ids_are_range (net : Net) (st : Client)
    (reqs : List Json) (hok : ∀ k, net.sendOk k = true)
    (hinit : st.call_id = 0) :
    (sendRequests net st reqs).2 = List.range reqs.length ∧
      (sendRequests net st reqs).2.Nodup ∧
      (sendRequests net st reqs).2.Pairwise (· < ·) := by
  have h := sendRequests_ids net hok reqs st
  rw [hinit] at h
  rw [h, ← List.range_eq_range']
  exact ⟨rfl, List.nodup_range _, List.pairwise_lt_range _⟩

/-- Witness for `send_request_ids_are_range` at a concrete client and a
three-request sequence. -/
theorem send_request_ids_are_range_witness :
    (sendRequests ⟨fun _ => true, fun _ => true⟩
        ⟨true, true, 1, 0, false, true, true, 0, 0⟩
        [Json.null, Json.num 2, Json.str "x"]).2 = [0, 1, 2] ∧
      ([0, 1, 2] : List Nat).Nodup ∧
      ([0, 1, 2] : List Nat).Pairwise (· < ·) := by
  have h := send_request_ids_are_range ⟨fun _ => true, fun _ => true⟩
    ⟨true, true, 1, 0, false, true, true, 0, 0⟩
    [Json.null, Json.num 2, Json.str "x"] (fun _ => rfl) rfl
  exact ⟨h.1.trans (by decide), by decide, by decide⟩

/-- C6: with a healthy connection, `send_request` transmits exactly the
newline-terminated JSON serialization of
`{"callId": <assigned id>, "req": <request>}` if and only if the engine
is running and connected; otherwise nothing at all is transmitted (and
an id is still assigned). -/
theorem send_request_envelope_iff_connected (net : Net) (st : Client)
    (r : Json) (hok : ∀ k, net.sendOk k = true) :
    (st.running = true → st.ws = true →
      send_request net st r =
        .ok { st with sendCnt := st.sendCnt + 1, call_id := st.call_id + 1 }
          [Eff.transmit (Json.dumps (envelope st.call_id r) ++ "\n")]
          st.call_id) ∧
    ((st.running && st.ws) = false →
      send_request net st r =
        .ok { st with call_id := st.call_id + 1 } [] st.call_id) := by
  constructor
  · intro h1 h2
    simp [send_request, sendRequestF, engineFuel, sendF, wsSendPrim, h1, h2, hok]
  · intro h12
    simp [send_request, sendRequestF, engineFuel, sendF, h12]

/-- Witness for `send_request_envelope_iff_connected`: a running,
connected client with `call_id = 7` transmits the concrete envelope
text; a disconnected one transmits nothing. -/
theorem send_request_envelope_witness :
    send_request ⟨fun _ => true, fun _ => true⟩
        ⟨true, true, 0, 7, true, true, true, 4, 1⟩ (Json.str "q") =
      .ok ⟨true, true, 0, 8, true, true, true, 5, 1⟩
        [Eff.transmit "\x7b\"callId\": 7, \"req\": \"q\"\x7d\n"] 7 ∧
    send_request ⟨fun _ => true, fun _ => true⟩
        ⟨true, false, 0, 7, true, true, true, 4, 1⟩ (Json.str "q") =
      .ok ⟨true, false, 0, 8, true, true, true, 4, 1⟩ [] 7 := by
  have h := send_request_envelope_iff_connected ⟨fun _ => true, fun _ => true⟩
    ⟨true, true, 0, 7, true, true, true, 4, 1⟩ (Json.str "q") (fun _ => rfl)
  have h2 := send_request_envelope_iff_connected ⟨fun _ => true, fun _ => true⟩
    ⟨true, false, 0, 7, true, true, true, 4, 1⟩ (Json.str "q") (fun _ => rfl)
  exact ⟨h.1 rfl rfl, h2.2 rfl⟩

/-- While buffering, delivering note payloads appends all their notes,
in arrival order, and keeps the machine buffering. -/
theorem bufferAll_appends :
    ∀ (payloads : List Json) (noteLists : List (List Json))
      (st : TypecheckState),
      List.Forall₂ (fun (p : Json) ns => p.getKey "notes" = some (.arr ns))
        payloads noteLists →
      st.currently_buffering_typechecks = true →
      bufferAll st payloads =
        .ok { currently_buffering_typechecks := true,
              buffered_notes := st.buffered_notes ++ noteLists.flatten } := by
  intro payloads
  induction payloads with
  | nil =>
      intro noteLists st hf hb
      cases hf
      simp [bufferAll, ← hb]
  | cons p ps ih =>
      intro noteLists st hf hb
      cases hf with
      | cons hp hps =>
        rename_i ns nss
        simp only [bufferAll, buffer_typechecks, hb, if_true, hp]
        have hstep := ih nss
          { currently_buffering_typechecks := true,
            buffered_notes := st.buffered_notes ++ ns } hps rfl
        rw [hstep]
        simp [List.flatten_cons, List.append_assoc]

/-- C2: the diagnostics buffering state machine.  (1) A note event
delivered while not buffering leaves the state unchanged (dropped, and
nothing is flushed since only completion flushes).  (2) All notes
delivered between `start_typechecking` and the completion event are in
the single `display_notes` batch flushed on completion, in arrival
order.  (3) `start_typechecking` — also a second one before completion
— discards all previously accumulated notes.  (4) The completion
handler is a no-op, with no flush, unless currently buffering. -/
theorem typecheck_buffer_state_machine :
    (∀ (st : TypecheckState) (p : Json),
      st.currently_buffering_typechecks = false →
      buffer_typechecks st p = .ok st) ∧
    (∀ (st : TypecheckState) (payloads : List Json)
       (noteLists : List (List Json)),
      List.Forall₂ (fun (p : Json) ns => p.getKey "notes" = some (.arr ns))
        payloads noteLists →
      ∃ stB, bufferAll (start_typechecking st) payloads = .ok stB ∧
        handle_typecheck_complete stB =
          ({ currently_buffering_typechecks := false, buffered_notes := [] },
           [Eff.displayNotes noteLists.flatten])) ∧
    (∀ st : TypecheckState,
      start_typechecking st =
        { currently_buffering_typechecks := true, buffered_notes := [] }) ∧
    (∀ st : TypecheckState,
      st.currently_buffering_typechecks = false →
      handle_typecheck_complete st = (st, [])) := by
  refine ⟨?_, ?_, ?_, ?_⟩
  · intro st p hb
    simp [buffer_typechecks, hb]
  · intro st payloads noteLists hf
    refine ⟨_, bufferAll_appends payloads noteLists (start_typechecking st) hf rfl, ?_⟩
    simp [handle_typecheck_complete, start_typechecking]
  · intro st; rfl
  · intro st hb
    simp [handle_typecheck_complete, hb]

/-- Witness for `typecheck_buffer_state_machine`: a dropped pre-begin
note, a two-payload buffered run flushed as one ordered batch, a
restart clearing an accumulated note, and a no-op completion. -/
theorem typecheck_buffer_witness :
    buffer_typechecks ⟨false, []⟩ (Json.obj [("notes", Json.arr [Json.num 9])]) =
      .ok ⟨false, []⟩ ∧
    (∃ stB, bufferAll (start_typechecking ⟨false, []⟩)
        [Json.obj [("notes", Json.arr [Json.num 1])],
         Json.obj [("notes", Json.arr [Json.num 2, Json.num 3])]] = .ok stB ∧
      handle_typecheck_complete stB =
        (⟨false, []⟩,
         [Eff.displayNotes [Json.num 1, Json.num 2, Json.num 3]])) ∧
    start_typechecking ⟨true, [Json.num 4]⟩ = ⟨true, []⟩ ∧
    handle_typecheck_complete ⟨false, [Json.num 5]⟩ =
      (⟨false, [Json.num 5]⟩, []) := by
  obtain ⟨h1, h2, h3, h4⟩ := typecheck_buffer_state_machine
  have hb := h2 ⟨false, []⟩
    [Json.obj [("notes", Json.arr [Json.num 1])],
     Json.obj [("notes", Json.arr [Json.num 2, Json.num 3])]]
    [[Json.num 1], [Json.num 2, Json.num 3]]
    (List.Forall₂.cons rfl (List.Forall₂.cons rfl List.Forall₂.nil))
  exact ⟨h1 ⟨false, []⟩ _ rfl, hb, h3 ⟨true, [Json.num 4]⟩,
    h4 ⟨false, [Json.num 5]⟩ rfl⟩

/-- C3, counterexample: a send failure with the reconnect budget
exhausted runs `disable_completely` (server shut down, plugin
disabled), but leaves `running` and `ws` set — so a subsequent send
attempt on this client still reaches `ws.send` and, on a connection
that accepts it (the oracle succeeds from the third operation on),
transmits the message: it is not a no-op and transmits something. -/
theorem send_after_disablement_transmits_cex :
    sendMsg ⟨fun k => decide (k ≥ 2), fun _ => true⟩
        ⟨true, true, 0, 5, true, true, true, 0, 0⟩ "m1" =
      .exn ⟨true, true, 0, 5, true, true, true, 2, 0⟩
        [Eff.serverStop, Eff.disablePlugin] ∧
    sendMsg ⟨fun k => decide (k ≥ 2), fun _ => true⟩
        ⟨true, true, 0, 5, true, true, true, 2, 0⟩ "m2" =
      .ok ⟨true, true, 0, 5, true, true, true, 3, 0⟩
        [Eff.transmit "m2\n"] () :=
  ⟨rfl, rfl⟩

/-- C3, amended: (a) when a send transmission throws while the single
reconnect try is still available, exactly one reconnect attempt is made
and the send is retried exactly once (preceded by the new connection's
`ConnectionInfoReq`); (b) once the budget is exhausted, a send failure
routes directly to `disable_completely` (server shut down, plugin
disabled) and, while the connection keeps failing, nothing is
transmitted — but `disable_completely` does not clear `running` or
`ws`, so the attempt re-raises rather than becoming a no-op; (c) a send
attempt after `teardown` (`running = false`, the pump-path disablement)
transmits nothing and is a true no-op. -/
theorem send_reconnect_policy :
    (∀ (net : Net) (st : Client) (msg : String),
      st.running = true → st.ws = true → st.number_try_connection = 1 →
      net.sendOk st.sendCnt = false → net.connOk st.connCnt = true →
      net.sendOk (st.sendCnt + 1) = true → net.sendOk (st.sendCnt + 2) = true →
      sendMsg net st msg =
        .ok { st with number_try_connection := 0, ensime_server := true,
                      ws := true, sendCnt := st.sendCnt + 3,
                      connCnt := st.connCnt + 1, call_id := st.call_id + 1 }
          [Eff.connectAttempt,
           Eff.transmit (Json.dumps (envelope st.call_id connectionInfoReq) ++ "\n"),
           Eff.transmit (msg ++ "\n")] ()) ∧
    (∀ (net : Net) (st : Client) (msg : String),
      st.running = true → st.ws = true → st.number_try_connection = 0 →
      st.ensimeExists = true → st.toggle_teardown = true →
      net.sendOk st.sendCnt = false → net.sendOk (st.sendCnt + 1) = false →
      sendMsg net st msg =
        .exn { st with sendCnt := st.sendCnt + 2 }
          [Eff.serverStop, Eff.disablePlugin]) ∧
    (∀ (net : Net) (st : Client) (msg : String),
      st.running = false → sendMsg net st msg = .ok st [] ()) := by
  refine ⟨?_, ?_, ?_⟩
  · intro net st msg hr hw hn h0 hc h1 h2
    obtain ⟨r, w, n, ci, es, ee, tt, sc, cc⟩ := st
    simp only at hr hw hn h0 hc h1 h2
    subst hr hw hn
    simp [sendMsg, sendF, engineFuel, wsSendPrim, connectF, sendRequestF,
      h0, hc, h1, h2]
  · intro net st msg hr hw hn he ht h0 h1
    obtain ⟨r, w, n, ci, es, ee, tt, sc, cc⟩ := st
    simp only at hr hw hn he ht h0 h1
    subst hr hw hn he ht
    simp [sendMsg, sendF, engineFuel, wsSendPrim, connectF, sendRequestF,
      disable_completely, shutdown_server, h0, h1]
  · intro net st msg hr
    obtain ⟨r, w, n, ci, es, ee, tt, sc, cc⟩ := st
    simp only at hr
    subst hr
    simp [sendMsg, sendF, engineFuel]

/-- Witness for `send_reconnect_policy`: the three behaviours at
concrete clients and oracles. -/
theorem send_reconnect_policy_witness :
    sendMsg ⟨fun k => decide (k ≥ 1), fun _ => true⟩
        ⟨true, true, 1, 5, false, true, true, 0, 0⟩ "m" =
      .ok ⟨true, true, 0, 6, true, true, true, 3, 1⟩
        [Eff.connectAttempt,
         Eff.transmit
           "\x7b\"callId\": 5, \"req\": \x7b\"typehint\": \"ConnectionInfoReq\"\x7d\x7d\n",
         Eff.transmit "m\n"] () ∧
    sendMsg ⟨fun _ => false, fun _ => true⟩
        ⟨true, true, 0, 5, true, true, true, 0, 0⟩ "m" =
      .exn ⟨true, true, 0, 5, true, true, true, 2, 0⟩
        [Eff.serverStop, Eff.disablePlugin] ∧
    sendMsg ⟨fun _ => true, fun _ => true⟩
        ⟨false, true, 1, 5, true, true, true, 0, 0⟩ "m" =
      .ok ⟨false, true, 1, 5, true, true, true, 0, 0⟩ [] () := by
  obtain ⟨ha, hb, hc⟩ := send_reconnect_policy
  exact ⟨ha ⟨fun k => decide (k ≥ 1), fun _ => true⟩
      ⟨true, true, 1, 5, false, true, true, 0, 0⟩ "m" rfl rfl rfl rfl rfl rfl rfl,
    hb ⟨fun _ => false, fun _ => true⟩
      ⟨true, true, 0, 5, true, true, true, 0, 0⟩ "m" rfl rfl rfl rfl rfl rfl rfl,
    hc ⟨fun _ => true, fun _ => true⟩
      ⟨false, true, 1, 5, true, true, true, 0, 0⟩ "m" rfl⟩

/-- C9: on a receive exception in the pump loop, (1) the exception is
logged; (2) if the engine was already told to stop, nothing else
happens and the loop exits at its next `while running` check; (3)
running with the reconnect budget exhausted, the failure path runs:
`teardown` (running cleared, server stopped) and plugin disablement,
after which the loop exits; (4) running with budget remaining, only the
log is emitted and the loop continues; (5) the handler's effects are
only ever the log, the server stop and the (threadsafe) plugin
disablement — it never transmits, touches the editor directly, puts
frames, or terminates the process. -/
theorem pump_receive_exception_policy (st : Client) :
    (Eff.logRecvExn ∈ (pumpExnHandler st).2) ∧
    (st.running = false →
      pumpExnHandler st = (st, [Eff.logRecvExn]) ∧
      (pumpStep st .exn).2.2 = false) ∧
    (st.running = true → st.ws = true → st.number_try_connection = 0 →
      st.ensimeExists = true → st.toggle_teardown = true →
      pumpExnHandler st =
        ({ st with running := false },
         [Eff.logRecvExn, Eff.serverStop, Eff.disablePlugin]) ∧
      (pumpStep st .exn).2.2 = false) ∧
    (st.running = true → st.ws = true → st.number_try_connection ≠ 0 →
      pumpExnHandler st = (st, [Eff.logRecvExn]) ∧
      (pumpStep st .exn).2.2 = true) ∧
    (∀ e ∈ (pumpExnHandler st).2,
      e = Eff.logRecvExn ∨ e = Eff.serverStop ∨ e = Eff.disablePlugin) := by
  obtain ⟨r, w, n, ci, es, ee, tt, sc, cc⟩ := st
  refine ⟨?_, ?_, ?_, ?_, ?_⟩
  · cases r
    · simp [pumpExnHandler]
    · rcases n with _ | n
      · simp [pumpExnHandler, teardown, shutdown_server]
      · simp [pumpExnHandler]
  · intro hr
    simp only at hr; subst hr
    simp [pumpExnHandler, pumpStep]
  · intro hr hw hn he ht
    simp only at hr hw hn he ht; subst hr hw hn he ht
    simp [pumpExnHandler, pumpStep, teardown, shutdown_server]
  · intro hr hw hn
    simp only at hr hw; subst hr hw
    simp only at hn
    simp [pumpExnHandler, pumpStep, teardown, shutdown_server, hn]
  · intro e he
    cases r
    · simp [pumpExnHandler] at he
      simp [he]
    · rcases n with _ | n
      · cases ee <;> cases tt <;>
          simp [pumpExnHandler, teardown, shutdown_server] at he <;> tauto
      · simp [pumpExnHandler] at he
        simp [he]

/-- Witness for `pump_receive_exception_policy` at a running client
with exhausted budget: teardown and plugin disablement, loop exit. -/
theorem pump_receive_exception_witness :
    pumpExnHandler ⟨true, true, 0, 3, true, true, true, 0, 0⟩ =
      (⟨false, true, 0, 3, true, true, true, 0, 0⟩,
       [Eff.logRecvExn, Eff.serverStop, Eff.disablePlugin]) ∧
    (pumpStep ⟨true, true, 0, 3, true, true, true, 0, 0⟩ .exn).2.2 = false ∧
    pumpExnHandler ⟨false, true, 0, 3, true, true, true, 0, 0⟩ =
      (⟨false, true, 0, 3, true, true, true, 0, 0⟩, [Eff.logRecvExn]) := by
  have h := pump_receive_exception_policy ⟨true, true, 0, 3, true, true, true, 0, 0⟩
  have h2 := pump_receive_exception_policy ⟨false, true, 0, 3, true, true, true, 0, 0⟩
  obtain ⟨hx, hy⟩ := h.2.2.1 rfl rfl rfl rfl rfl
  exact ⟨hx, hy, (h2.2.1 rfl).1⟩

/-- C8: `apply_refactor` on a `RefactorDiffEffect` payload.  For a
supported refactor kind, the external patch process runs and the file
is reloaded (`edit` plus the re-read autocommands) regardless of the
exit status, with the `failed_refactoring` message emitted exactly when
the exit status is non-zero; for every unsupported kind the event
produces no effect at all. -/
theorem apply_refactor_outcomes (path : String) (payload : Json)
    (patchExit : Nat) (kind diffPath : String)
    (hkind : (payload.getKey "refactorType").bind (·.getKey "typehint") =
      some (.str kind)) :
    (kind ∈ supportedRefactorKinds →
      payload.getKey "diff" = some (.str diffPath) →
      ((patchExit ≠ 0 →
        apply_refactor path payload patchExit =
          .ok [Eff.popenPatch path diffPath,
               Eff.message "failed_refactoring",
               Eff.vimCommand ("edit " ++ path),
               Eff.vimCommand "doautocmd BufReadPre,BufRead,BufEnter"]) ∧
       (patchExit = 0 →
        apply_refactor path payload patchExit =
          .ok [Eff.popenPatch path diffPath,
               Eff.vimCommand ("edit " ++ path),
               Eff.vimCommand "doautocmd BufReadPre,BufRead,BufEnter"]))) ∧
    (kind ∉ supportedRefactorKinds →
      apply_refactor path payload patchExit = .ok []) := by
  constructor
  · intro hsup hdiff
    constructor
    · intro hne
      simp [apply_refactor, hkind, hsup, hdiff, hne]
    · intro hz
      subst hz
      simp [apply_refactor, hkind, hsup, hdiff]
  · intro hsup
    simp [apply_refactor, hkind, hsup]

/-- Witness for `apply_refactor_outcomes`: a failing `Rename` patch
(message plus reload), a succeeding one (reload only), and an
unsupported `Move` kind (nothing). -/
theorem apply_refactor_witness :
    apply_refactor "/s/F.scala"
        (Json.obj [("refactorType", Json.obj [("typehint", Json.str "Rename")]),
                   ("diff", Json.str "/tmp/d.diff")]) 1 =
      .ok [Eff.popenPatch "/s/F.scala" "/tmp/d.diff",
           Eff.message "failed_refactoring",
           Eff.vimCommand "edit /s/F.scala",
           Eff.vimCommand "doautocmd BufReadPre,BufRead,BufEnter"] ∧
    apply_refactor "/s/F.scala"
        (Json.obj [("refactorType", Json.obj [("typehint", Json.str "Rename")]),
                   ("diff", Json.str "/tmp/d.diff")]) 0 =
      .ok [Eff.popenPatch "/s/F.scala" "/tmp/d.diff",
           Eff.vimCommand "edit /s/F.scala",
           Eff.vimCommand "doautocmd BufReadPre,BufRead,BufEnter"] ∧
    apply_refactor "/s/F.scala"
        (Json.obj [("refactorType", Json.obj [("typehint", Json.str "Move")]),
                   ("diff", Json.str "/tmp/d.diff")]) 1 = .ok [] := by
  have h1 := apply_refactor_outcomes "/s/F.scala"
    (Json.obj [("refactorType", Json.obj [("typehint", Json.str "Rename")]),
               ("diff", Json.str "/tmp/d.diff")]) 1 "Rename" "/tmp/d.diff" rfl
  have h0 := apply_refactor_outcomes "/s/F.scala"
    (Json.obj [("refactorType", Json.obj [("typehint", Json.str "Rename")]),
               ("diff", Json.str "/tmp/d.diff")]) 0 "Rename" "/tmp/d.diff" rfl
  have hm := apply_refactor_outcomes "/s/F.scala"
    (Json.obj [("refactorType", Json.obj [("typehint", Json.str "Move")]),
               ("diff", Json.str "/tmp/d.diff")]) 1 "Move" "/tmp/d.diff" rfl
  exact ⟨(h1.1 (by decide) rfl).1 (by decide),
    (h0.1 (by decide) rfl).2 rfl, hm.2 (by decide)⟩

/-- C4: protocol dispatch.  With `payload["typehint"]` present, (1) a
registered handler is invoked with `(callId, payload)` and dispatch
returns normally; (2) a handler raising `NotImplementedError` is caught
and turned into the feature-not-supported user message instead of
propagating; (3) with no registered handler the payload is logged as
unhandled and dispatch returns normally. -/
theorem dispatch_registry_behaviour
    (registry : String → Option HandlerOutcome) (call_id : Option Json)
    (payload : Json) (typehint : String)
    (hth : payload.getKey "typehint" = some (.str typehint)) :
    (registry typehint = some .normal →
      handle_incoming_response registry call_id payload =
        .ok [Eff.invokeHandler call_id payload]) ∧
    (registry typehint = some .notImplementedError →
      handle_incoming_response registry call_id payload =
        .ok [Eff.invokeHandler call_id payload,
             Eff.notSupportedMsg typehint]) ∧
    (registry typehint = none →
      handle_incoming_response registry call_id payload =
        .ok [Eff.logUnhandled payload]) := by
  refine ⟨?_, ?_, ?_⟩ <;> intro hreg <;>
    simp [handle_incoming_response, hth, hreg]

/-- Witness for `dispatch_registry_behaviour` over a two-entry registry:
a normal handler, a `NotImplementedError` stub, and an unknown
typehint. -/
theorem dispatch_registry_witness :
    handle_incoming_response
        (fun t => if t = "SymbolInfo" then some .normal
          else if t = "DebugBacktrace" then some .notImplementedError
          else none)
        (some (Json.num 2)) (Json.obj [("typehint", Json.str "SymbolInfo")]) =
      .ok [Eff.invokeHandler (some (Json.num 2))
            (Json.obj [("typehint", Json.str "SymbolInfo")])] ∧
    handle_incoming_response
        (fun t => if t = "SymbolInfo" then some .normal
          else if t = "DebugBacktrace" then some .notImplementedError
          else none)
        none (Json.obj [("typehint", Json.str "DebugBacktrace")]) =
      .ok [Eff.invokeHandler none (Json.obj [("typehint", Json.str "DebugBacktrace")]),
           Eff.notSupportedMsg "DebugBacktrace"] ∧
    handle_incoming_response
        (fun t => if t = "SymbolInfo" then some .normal
          else if t = "DebugBacktrace" then some .notImplementedError
          else none)
        none (Json.obj [("typehint", Json.str "Mystery")]) =
      .ok [Eff.logUnhandled (Json.obj [("typehint", Json.str "Mystery")])] := by
  have h1 := dispatch_registry_behaviour
    (fun t => if t = "SymbolInfo" then some .normal
      else if t = "DebugBacktrace" then some .notImplementedError
      else none)
    (some (Json.num 2)) (Json.obj [("typehint", Json.str "SymbolInfo")])
    "SymbolInfo" rfl
  have h2 := dispatch_registry_behaviour
    (fun t => if t = "SymbolInfo" then some .normal
      else if t = "DebugBacktrace" then some .notImplementedError
      else none)
    none (Json.obj [("typehint", Json.str "DebugBacktrace")])
    "DebugBacktrace" rfl
  have h3 := dispatch_registry_behaviour
    (fun t => if t = "SymbolInfo" then some .normal
      else if t = "DebugBacktrace" then some .notImplementedError
      else none)
    none (Json.obj [("typehint", Json.str "Mystery")]) "Mystery" rfl
  exact ⟨h1.1 (by decide), h2.2.1 (by decide), h3.2.2 (by decide)⟩

/-- Observer callbacks contribute no dispatch events. -/
theorem callback_events_no_dispatch (callbacks : List String) (p : Json) :
    (callbacks.map (fun n => DrainEv.callback n p)).filterMap dispatchEv = [] := by
  induction callbacks with
  | nil => rfl
  | cons c cs ih => simp [dispatchEv, ih]

/-- C5: the drain loop dispatches queued frames in exactly the FIFO
order of their arrival: over any queue of well-formed frames the
sequence of `handle_incoming_response` invocations is precisely the
order-preserving projection of the frame sequence, with no reordering
(the loop itself is the only consumer — dispatch is sequential). -/
theorem drain_fifo_order (callbacks : List String) (frames : List RawFrame)
    (hwf : ∀ f ∈ frames, wellFormedFrame f = true) :
    ∃ evs, unqueueList callbacks frames = .ok evs ∧
      evs.filterMap dispatchEv = frames.filterMap dispatchOf := by
  induction frames with
  | nil => exact ⟨[], rfl, rfl⟩
  | cons f fs ih =>
      obtain ⟨evs, heq, hfm⟩ := ih (fun g hg => hwf g (List.mem_cons_of_mem f hg))
      cases f with
      | nilStr =>
          refine ⟨DrainEv.logNil :: evs, ?_, ?_⟩
          · simp [unqueueList, processFrame, heq]
          · simp [dispatchEv, dispatchOf, hfm]
      | emptyStr =>
          refine ⟨DrainEv.logNil :: evs, ?_, ?_⟩
          · simp [unqueueList, processFrame, heq]
          · simp [dispatchEv, dispatchOf, hfm]
      | json j =>
          have hk : (j.getKey "payload").isSome = true := by
            have := hwf (.json j) (List.mem_cons_self _ _)
            simpa [wellFormedFrame, Json.hasKey] using this
          obtain ⟨p, hp⟩ := Option.isSome_iff_exists.mp hk
          by_cases ht : p.truthy = true
          · refine ⟨callbacks.map (fun n => DrainEv.callback n p)
                ++ [DrainEv.dispatched (j.getKey "callId") p] ++ evs, ?_, ?_⟩
            · simp [unqueueList, processFrame, hp, ht, heq]
            · simp [List.filterMap_append, callback_events_no_dispatch,
                dispatchEv, dispatchOf, hp, ht, hfm]
          · have ht2 : p.truthy = false := by simpa using ht
            refine ⟨evs, ?_, ?_⟩
            · simp [unqueueList, processFrame, hp, ht2, heq]
            · simp [dispatchOf, hp, ht2, hfm]

/-- Witness for `drain_fifo_order`: a queue of four frames — a reply, a
`"nil"` frame, a null-payload event and a callId-less event — dispatches
exactly the first and last payloads, in that order. -/
theorem drain_fifo_order_witness :
    ∃ evs, unqueueList ["obs"]
        [RawFrame.json (Json.obj [("callId", Json.num 1),
           ("payload", Json.obj [("typehint", Json.str "SymbolInfo")])]),
         RawFrame.nilStr,
         RawFrame.json (Json.obj [("callId", Json.num 2), ("payload", Json.null)]),
         RawFrame.json (Json.obj [("payload",
           Json.obj [("typehint", Json.str "AnalyzerReadyEvent")])])] = .ok evs ∧
      evs.filterMap dispatchEv =
        [(some (Json.num 1), Json.obj [("typehint", Json.str "SymbolInfo")]),
         (none, Json.obj [("typehint", Json.str "AnalyzerReadyEvent")])] := by
  obtain ⟨evs, heq, hfm⟩ := drain_fifo_order ["obs"]
    [RawFrame.json (Json.obj [("callId", Json.num 1),
       ("payload", Json.obj [("typehint", Json.str "SymbolInfo")])]),
     RawFrame.nilStr,
     RawFrame.json (Json.obj [("callId", Json.num 2), ("payload", Json.null)]),
     RawFrame.json (Json.obj [("payload",
       Json.obj [("typehint", Json.str "AnalyzerReadyEvent")])])]
    (by intro f hf; fin_cases hf <;> rfl)
  exact ⟨evs, heq, hfm.trans rfl⟩

/-- C7, counterexample: a frame whose decoded JSON has no `payload` key
makes the drain loop raise `KeyError` (`_json["payload"]` is bracket
access), aborting the drain — the following well-formed frame is never
dispatched — rather than being discarded with processing continuing. -/
theorem drain_absent_payload_cex :
    unqueueList []
      [RawFrame.json (Json.obj [("callId", Json.num 1)]),
       RawFrame.json (Json.obj [("payload",
         Json.obj [("typehint", Json.str "AnalyzerReadyEvent")])])] =
      .error () := rfl

/-- C7, amended: a frame whose decoded JSON has a null `payload` (the
key present) is discarded without invoking any handler or callback and
without raising, and the drain continues with the remaining frames
exactly as if the frame had not been there; a frame lacking the
`payload` key instead raises `KeyError`, aborting the drain. -/
theorem null_payload_discarded (callbacks : List String) (j : Json)
    (rest : List RawFrame) (hp : j.getKey "payload" = some Json.null) :
    processFrame callbacks (.json j) = .ok [] ∧
    unqueueList callbacks (.json j :: rest) = unqueueList callbacks rest := by
  have h1 : processFrame callbacks (.json j) = .ok [] := by
    simp [processFrame, hp, Json.truthy]
  refine ⟨h1, ?_⟩
  cases h2 : unqueueList callbacks rest <;> simp [unqueueList, h1, h2]

/-- Witness for `null_payload_discarded`: a concrete null-payload frame
produces no events and the drain proceeds to the next frame. -/
theorem null_payload_discarded_witness :
    processFrame ["obs"]
      (.json (Json.obj [("callId", Json.num 2), ("payload", Json.null)])) =
      .ok [] ∧
    unqueueList ["obs"]
      [RawFrame.json (Json.obj [("callId", Json.num 2), ("payload", Json.null)]),
       RawFrame.nilStr] =
      unqueueList ["obs"] [RawFrame.nilStr] :=
  null_payload_discarded ["obs"]
    (Json.obj [("callId", Json.num 2), ("payload", Json.null)])
    [RawFrame.nilStr] rfl

/-- Mapping after a Boolean filter is one order-preserving pass. -/
theorem map_filter_eq_filterMap {α β : Type} (p : α → Bool) (f : α → β)
    (l : List α) :
    (l.filter p).map f =
      l.filterMap (fun a => if p a then some (f a) else none) := by
  induction l with
  | nil => rfl
  | cons a as ih =>
      cases hpa : p a <;> simp [List.filter_cons, hpa, ih]

/-- C10: the completion handler drops every completion entry lacking a
`typeInfo` field and stores suggestions built only from the remaining
entries, preserving their payload order (the conversion of one entry is
abstract, as `symbol_format.completion_to_suggest` is an external
collaborator). -/
theorem completion_filter_typeinfo {α : Type} (toSuggest : Json → α)
    (payload : Json) (cs : List Json)
    (hc : payload.getKey "completions" = some (.arr cs)) :
    handle_completion_info_list toSuggest payload =
      .ok (cs.filterMap
        (fun c => if c.hasKey "typeInfo" then some (toSuggest c) else none)) := by
  simp [handle_completion_info_list, hc, map_filter_eq_filterMap]

/-- Witness for `completion_filter_typeinfo`: of three entries the one
without `typeInfo` is dropped and the other two are kept in order. -/
theorem completion_filter_typeinfo_witness :
    handle_completion_info_list (fun c => c)
      (Json.obj [("completions", Json.arr
        [Json.obj [("name", Json.str "a"), ("typeInfo", Json.obj [])],
         Json.obj [("name", Json.str "b")],
         Json.obj [("name", Json.str "c"), ("typeInfo", Json.null)]])]) =
      .ok [Json.obj [("name", Json.str "a"), ("typeInfo", Json.obj [])],
           Json.obj [("name", Json.str "c"), ("typeInfo", Json.null)]] := by
  have h := completion_filter_typeinfo (fun c => c)
    (Json.obj [("completions", Json.arr
      [Json.obj [("name", Json.str "a"), ("typeInfo", Json.obj [])],
       Json.obj [("name", Json.str "b")],
       Json.obj [("name", Json.str "c"), ("typeInfo", Json.null)]])])
    [Json.obj [("name", Json.str "a"), ("typeInfo", Json.obj [])],
     Json.obj [("name", Json.str "b")],
     Json.obj [("name", Json.str "c"), ("typeInfo", Json.null)]] rfl
  exact h.trans rfl

end EnsimeVim
